import Mathlib

/-
Shallow embedding of the memorial-candles remote-document synchronization
engine, translated from the JavaScript source:
  - src/services/gistService.js (GistService class)
  - src/App.jsx (App component: polling loop and the four mutation handlers)

Network effects are embedded by passing the outcome of each HTTP round trip
as an explicit argument (a `GistResponse` for a GET, a `WriteOutcome` for a
PATCH).  React `useState` setters become explicit state passing on an
`AppState` record; `useRef` cells (`skipNextPoll`) are fields of the same
record.  JavaScript numbers used as ids are embedded as `Nat` (they are
assigned by `max + 1` starting from 1); positions are embedded as `Int`
(only stored and compared, never arithmetically combined by the engine).
An async function that may reject is embedded with `Except`; a function
that catches internally and returns normally is total.
-/

/-- One memorial entry, the unit of shared state:
`{ id, x, y, name }` as stored in the gist JSON array. -/
structure Candle where
  id : Nat
  x : Int
  y : Int
  name : String
  deriving Repr, DecidableEq

/-- The state of the single tracked file (`candles.json`) inside a fetched
gist: absent or empty content, content that `JSON.parse` rejects, or a
valid candle array. -/
inductive ContentState where
  | absent
  | malformed
  | valid (candles : List Candle)
  deriving Repr, DecidableEq

/-- Outcome of a GET of the gist: the `fetch` promise rejects (network
failure), the response is non-2xx (`response.ok` false), or a 2xx response
carrying the `updated_at` marker and the tracked file's content. -/
inductive GistResponse where
  | networkError
  | httpError (status : Nat)
  | ok (updatedAt : String) (content : ContentState)
  deriving Repr, DecidableEq

/-- A JavaScript exception value, as far as the engine observes it. -/
inductive GistError where
  | js (msg : String)
  deriving Repr, DecidableEq

/-- `GistService.loadCandles` (gistService.js lines 29-55).  The whole body
is wrapped in try/catch; the catch logs and returns `[]`.  Hence:
network rejection -> caught -> `[]`; non-2xx -> `throw` inside the try ->
caught -> `[]`; missing/empty file content -> `[]`; `JSON.parse` throw on
malformed content -> caught -> `[]`; valid content -> the parsed array.
The `Authorization` header is attached only when a token exists, but the
code path does not depend on it, so `hasToken` is ignored here.
The function is embedded in `Except` to record that, as an async function,
it could in principle reject; the theorems show it never does. -/
def loadCandles (hasToken : Bool) (r : GistResponse) : Except GistError (List Candle) :=
  match r with
  | GistResponse.networkError => Except.ok []
  | GistResponse.httpError _ => Except.ok []
  | GistResponse.ok _ ContentState.absent => Except.ok []
  | GistResponse.ok _ ContentState.malformed => Except.ok []
  | GistResponse.ok _ (ContentState.valid cs) => Except.ok cs

/-- Outcome of the PATCH request issued by `saveCandles`, when one is
issued at all. -/
inductive WriteOutcome where
  | networkError
  | httpError (status : Nat)
  | ok
  deriving Repr, DecidableEq

/-- Observable result of a `saveCandles` call: the boolean the function
returns, whether the PATCH was attempted at all, and the content the
remote document now holds if the PATCH succeeded. -/
structure SaveResult where
  success : Bool
  attempted : Bool
  written : Option (List Candle)
  deriving Repr, DecidableEq

/-- The result of a mutation path on which `saveCandles` was never
reached (only live on the dead catch branches of App.jsx). -/
def noSave : SaveResult :=
  { success := false, attempted := false, written := none }

/-- `GistService.saveCandles` (gistService.js lines 62-92).  With no token
it warns and returns `false` before any request (fail fast).  Otherwise it
PATCHes the full array; non-2xx throws inside the try and the catch
returns `false`; a network rejection is likewise caught and returns
`false`.  The function never throws to its caller. -/
def saveCandles (hasToken : Bool) (w : WriteOutcome) (candles : List Candle) : SaveResult :=
  if hasToken then
    match w with
    | WriteOutcome.networkError => { success := false, attempted := true, written := none }
    | WriteOutcome.httpError _ => { success := false, attempted := true, written := none }
    | WriteOutcome.ok => { success := true, attempted := true, written := some candles }
  else
    { success := false, attempted := false, written := none }

/-- `GistService.isConfigured` (gistService.js lines 136-138): `!!GITHUB_TOKEN`. -/
def isConfigured (hasToken : Bool) : Bool :=
  hasToken

/-- The `updates` object passed to `GistService.updateCandle`; spread over
a candle it overrides exactly the fields it carries (callers pass `name`
or `x`/`y`, never `id`). -/
structure CandleUpdates where
  x : Option Int
  y : Option Int
  name : Option String
  deriving Repr, DecidableEq

/-- JavaScript spread `{ ...candle, ...updates }` for the fields of `CandleUpdates`. -/
def applyUpdates (c : Candle) (u : CandleUpdates) : Candle :=
  { id := c.id, x := u.x.getD c.x, y := u.y.getD c.y, name := u.name.getD c.name }

/-- `GistService.addCandle` (gistService.js lines 100-103). -/
def gistAddCandle (hasToken : Bool) (w : WriteOutcome)
    (currentCandles : List Candle) (newCandle : Candle) : SaveResult :=
  saveCandles hasToken w (currentCandles ++ [newCandle])

/-- `GistService.updateCandle` (gistService.js lines 112-117). -/
def gistUpdateCandle (hasToken : Bool) (w : WriteOutcome)
    (currentCandles : List Candle) (candleId : Nat) (u : CandleUpdates) : SaveResult :=
  saveCandles hasToken w
    (currentCandles.map fun c => if c.id = candleId then applyUpdates c u else c)

/-- `GistService.removeCandle` (gistService.js lines 125-130). -/
def gistRemoveCandle (hasToken : Bool) (w : WriteOutcome)
    (currentCandles : List Candle) (candleId : Nat) : SaveResult :=
  saveCandles hasToken w (currentCandles.filter fun c => c.id != candleId)

/-- Mutable fields of the `GistService` singleton that drive the polling
lifecycle (gistService.js constructor, lines 17-22).  Subscriber callbacks
(a JavaScript `Set` of functions) are embedded as a duplicate-free list of
handles in insertion order; `timerActive` stands for
`pollingInterval !== null` (a pending or running loop step); `loopStarts`
counts how many times the recursive `poll` loop was begun, so that
"without restarting the loop" is expressible. -/
structure PollingState where
  lastUpdated : Option String
  isPolling : Bool
  timerActive : Bool
  pollingCallbacks : List Nat
  loopStarts : Nat
  deriving Repr, DecidableEq

/-- `Set.prototype.add`: append the handle unless already present. -/
def setAdd (cb : Nat) (s : List Nat) : List Nat :=
  if cb ∈ s then s else s ++ [cb]

/-- `Set.prototype.delete`: remove the handle (lists kept duplicate-free). -/
def setDelete (cb : Nat) (s : List Nat) : List Nat :=
  s.erase cb

/-- One iteration of the `poll` closure inside `GistService.startPolling`
(gistService.js lines 153-185).  Returns the new state and the list of
callbacks notified on this tick.  The try/catch wraps fetch, parse and
notification; the trailing `if (this.isPolling) setTimeout(poll, interval)`
runs after the catch, so the loop is rescheduled on every outcome,
including errors, exactly when `isPolling` still holds.  Notification
requires a previously seen `lastUpdated`, a changed `updated_at`, and
parseable file content; a `JSON.parse` throw aborts the try before
`this.lastUpdated` is overwritten. -/
def gistPollTick (r : GistResponse) (st : PollingState) : PollingState × List Nat :=
  let afterTry : PollingState × List Nat :=
    match r with
    | GistResponse.networkError => (st, [])
    | GistResponse.httpError _ => (st, [])
    | GistResponse.ok currentUpdated content =>
      let changed : Bool :=
        match st.lastUpdated with
        | some lu => currentUpdated != lu
        | none => false
      if changed then
        match content with
        | ContentState.absent => ({ st with lastUpdated := some currentUpdated }, [])
        | ContentState.malformed => (st, [])
        | ContentState.valid _ =>
          ({ st with lastUpdated := some currentUpdated }, st.pollingCallbacks)
      else
        ({ st with lastUpdated := some currentUpdated }, [])
  ({ afterTry.1 with timerActive := afterTry.1.isPolling }, afterTry.2)

/-- `GistService.startPolling` (gistService.js lines 144-189).  If already
polling, only add the callback and return; otherwise add it, set
`isPolling`, and begin the `poll` loop. -/
def startPolling (cb : Nat) (st : PollingState) : PollingState :=
  if st.isPolling then
    { st with pollingCallbacks := setAdd cb st.pollingCallbacks }
  else
    { st with pollingCallbacks := setAdd cb st.pollingCallbacks,
              isPolling := true, timerActive := true,
              loopStarts := st.loopStarts + 1 }

/-- `GistService.stopPolling(callback)` with a specific callback
(gistService.js lines 195-205): delete the callback; if the set became
empty, stop polling and clear the pending timer. -/
def stopPollingCb (cb : Nat) (st : PollingState) : PollingState :=
  let cbs := setDelete cb st.pollingCallbacks
  if cbs.length = 0 then
    { st with pollingCallbacks := cbs, isPolling := false, timerActive := false }
  else
    { st with pollingCallbacks := cbs }

/-- `GistService.stopPolling()` with no argument (gistService.js lines
206-214): stop everything. -/
def stopPollingAll (st : PollingState) : PollingState :=
  { st with pollingCallbacks := [], isPolling := false, timerActive := false }

/-- `GistService.isPollingActive` (gistService.js lines 221-223). -/
def isPollingActive (st : PollingState) : Bool :=
  st.isPolling

/-- Invariant of the polling lifecycle: the loop is live exactly when the
subscriber set is nonempty.  It holds of the constructed service
(`isPolling = false`, empty set) and is preserved by the lifecycle
operations. -/
def PollInv (st : PollingState) : Prop :=
  st.isPolling = true ↔ st.pollingCallbacks ≠ []

/-- React state and refs of the `App` component that the sync engine reads
and writes (App.jsx lines 7-15).  `error` is the user-visible error
banner; `skipNextPoll` is the ref consulted by the polling callback;
`lastSyncCount` counts `setLastSync` calls (the timestamp value itself is
presentation-only). -/
structure AppState where
  candles : List Candle
  nextId : Nat
  error : Option String
  skipNextPoll : Bool
  lastSyncCount : Nat
  deriving Repr, DecidableEq

/-- `Math.max(...candles.map(c => c.id))` as used in App.jsx; every use
site guards for a nonempty list, on which this fold agrees with
`Math.max`. -/
def maxIdOf (cs : List Candle) : Nat :=
  cs.foldl (fun m c => max m c.id) 0

/-- `pollForUpdates` (App.jsx lines 18-48), one timer tick.  If
`skipNextPoll` is set, clear it and return.  Otherwise load from the gist
(`loadCandles` never rejects, so the catch that merely logs is dead) and,
when the data differs structurally from the current candles
(`JSON.stringify` comparison), replace the candle list, recompute `nextId`
from the remote ids when the remote list is nonempty, and bump the sync
marker.  No branch writes the `error` field. -/
def pollForUpdates (hasToken : Bool) (r : GistResponse) (s : AppState) : AppState :=
  if s.skipNextPoll then
    { s with skipNextPoll := false }
  else
    match loadCandles hasToken r with
    | Except.ok remoteCandles =>
      if s.candles ≠ remoteCandles then
        { s with candles := remoteCandles,
                 nextId := if 0 < remoteCandles.length then maxIdOf remoteCandles + 1 else s.nextId,
                 lastSyncCount := s.lastSyncCount + 1 }
      else
        s
    | Except.error _ => s

/-- The per-item transform of `updateCandleName` (App.jsx lines 132-134
and 140-142): `candle.id === id ? { ...candle, name } : candle`, mapped. -/
def renameTransform (id : Nat) (name : String) (cs : List Candle) : List Candle :=
  cs.map fun c => if c.id = id then { c with name := name } else c

/-- The per-item transform of `updateCandlePosition` (App.jsx lines
162-164 and 170-172): `candle.id === id ? { ...candle, x, y } : candle`. -/
def moveTransform (id : Nat) (x y : Int) (cs : List Candle) : List Candle :=
  cs.map fun c => if c.id = id then { c with x := x, y := y } else c

/-- The transform of `removeCandle` (App.jsx lines 191 and 197):
`candles.filter(candle => candle.id !== id)`. -/
def removeTransform (id : Nat) (cs : List Candle) : List Candle :=
  cs.filter fun c => c.id != id

/-
Each App.jsx mutation handler is split at its first `await` into a
synchronous start phase (set the skip flag, optimistic local update) and a
finish phase (re-fetch, merge, save, reconcile — App.jsx wraps these in
try/catch whose catch re-fetches as a rollback).  The split exposes the
suspension point at which polling-loop ticks can interleave; the unsplit
handler is the composition of the two phases.  `saveCandles` returns a
boolean and never rejects, and `loadCandles` never rejects either, so the
catch branch of each finish phase is unreachable; it is nevertheless
embedded, keyed on the `Except.error` case of the calls made inside the
try, because it is present in the source.
-/

/-- Synchronous prefix of `updateCandleName` (App.jsx lines 128-135). -/
def renameStart (id : Nat) (name : String) (s : AppState) : AppState :=
  { s with skipNextPoll := true, candles := renameTransform id name s.candles }

/-- Remainder of `updateCandleName` (App.jsx lines 138-155): fetch the
latest candles (`r1`), re-apply the rename to them, save (`w`), and accept
the merged list locally; the catch branch sets the error banner and
reloads from the server (`r2`). -/
def renameFinish (hasToken : Bool) (id : Nat) (name : String)
    (r1 : GistResponse) (w : WriteOutcome) (r2 : GistResponse)
    (s : AppState) : AppState × SaveResult :=
  match loadCandles hasToken r1 with
  | Except.ok latestCandles =>
    let mergedCandles := renameTransform id name latestCandles
    let save := saveCandles hasToken w mergedCandles
    ({ s with candles := mergedCandles }, save)
  | Except.error _ =>
    let s := { s with error := some "Failed to save name change. Please try again." }
    match loadCandles hasToken r2 with
    | Except.ok serverCandles => ({ s with candles := serverCandles }, noSave)
    | Except.error _ => (s, noSave)

/-- `updateCandleName` (App.jsx lines 128-156), both phases run back to
back with no interleaved poll tick. -/
def updateCandleName (hasToken : Bool) (id : Nat) (name : String)
    (r1 : GistResponse) (w : WriteOutcome) (r2 : GistResponse)
    (s : AppState) : AppState × SaveResult :=
  renameFinish hasToken id name r1 w r2 (renameStart id name s)

/-- Synchronous prefix of `updateCandlePosition` (App.jsx lines 158-165). -/
def moveStart (id : Nat) (x y : Int) (s : AppState) : AppState :=
  { s with skipNextPoll := true, candles := moveTransform id x y s.candles }

/-- Remainder of `updateCandlePosition` (App.jsx lines 168-184).  Its
catch branch deliberately does not set the error banner (position updates
are frequent); it only reloads from the server. -/
def moveFinish (hasToken : Bool) (id : Nat) (x y : Int)
    (r1 : GistResponse) (w : WriteOutcome) (r2 : GistResponse)
    (s : AppState) : AppState × SaveResult :=
  match loadCandles hasToken r1 with
  | Except.ok latestCandles =>
    let mergedCandles := moveTransform id x y latestCandles
    let save := saveCandles hasToken w mergedCandles
    ({ s with candles := mergedCandles }, save)
  | Except.error _ =>
    match loadCandles hasToken r2 with
    | Except.ok serverCandles => ({ s with candles := serverCandles }, noSave)
    | Except.error _ => (s, noSave)

/-- `updateCandlePosition` (App.jsx lines 158-185). -/
def updateCandlePosition (hasToken : Bool) (id : Nat) (x y : Int)
    (r1 : GistResponse) (w : WriteOutcome) (r2 : GistResponse)
    (s : AppState) : AppState × SaveResult :=
  moveFinish hasToken id x y r1 w r2 (moveStart id x y s)

/-- Synchronous prefix of `removeCandle` (App.jsx lines 187-192). -/
def removeStart (id : Nat) (s : AppState) : AppState :=
  { s with skipNextPoll := true, candles := removeTransform id s.candles }

/-- Remainder of `removeCandle` (App.jsx lines 195-210).  Note that on the
success path `nextId` is left untouched. -/
def removeFinish (hasToken : Bool) (id : Nat)
    (r1 : GistResponse) (w : WriteOutcome) (r2 : GistResponse)
    (s : AppState) : AppState × SaveResult :=
  match loadCandles hasToken r1 with
  | Except.ok latestCandles =>
    let mergedCandles := removeTransform id latestCandles
    let save := saveCandles hasToken w mergedCandles
    ({ s with candles := mergedCandles }, save)
  | Except.error _ =>
    let s := { s with error := some "Failed to remove candle. Please try again." }
    match loadCandles hasToken r2 with
    | Except.ok serverCandles => ({ s with candles := serverCandles }, noSave)
    | Except.error _ => (s, noSave)

/-- `removeCandle` (App.jsx lines 187-211). -/
def removeCandle (hasToken : Bool) (id : Nat)
    (r1 : GistResponse) (w : WriteOutcome) (r2 : GistResponse)
    (s : AppState) : AppState × SaveResult :=
  removeFinish hasToken id r1 w r2 (removeStart id s)

/-- Synchronous prefix of `addCandle` (App.jsx lines 85-102): build the new
candle with `id = nextId` (position drawn by `Math.random`, passed here as
`x`, `y`), append it optimistically and bump `nextId`. -/
def addStart (x y : Int) (s : AppState) : AppState :=
  { s with skipNextPoll := true,
           candles := s.candles ++ [{ id := s.nextId, x := x, y := y, name := "" }],
           nextId := s.nextId + 1 }

/-- Remainder of `addCandle` (App.jsx lines 105-125).  `newCandle` is the
closure value built in the prefix.  On success `nextId` is recomputed from
the merged (necessarily nonempty) list; the catch branch sets the error
banner and reloads, leaving `nextId` untouched. -/
def addFinish (hasToken : Bool) (newCandle : Candle)
    (r1 : GistResponse) (w : WriteOutcome) (r2 : GistResponse)
    (s : AppState) : AppState × SaveResult :=
  match loadCandles hasToken r1 with
  | Except.ok latestCandles =>
    let mergedCandles := latestCandles ++ [newCandle]
    let save := saveCandles hasToken w mergedCandles
    ({ s with candles := mergedCandles, nextId := maxIdOf mergedCandles + 1 }, save)
  | Except.error _ =>
    let s := { s with error := some "Failed to save candle. Please try again." }
    match loadCandles hasToken r2 with
    | Except.ok serverCandles => ({ s with candles := serverCandles }, noSave)
    | Except.error _ => (s, noSave)

/-- `addCandle` (App.jsx lines 85-126). -/
def addCandle (hasToken : Bool) (x y : Int)
    (r1 : GistResponse) (w : WriteOutcome) (r2 : GistResponse)
    (s : AppState) : AppState × SaveResult :=
  addFinish hasToken { id := s.nextId, x := x, y := y, name := "" } r1 w r2 (addStart x y s)

/-
--------------------------------------------------------------------------
Theorems settling the claims.
--------------------------------------------------------------------------
-/

/-- Claim C3, counterexample to the propagation half: a network failure
and a non-2xx response do not propagate out of `loadCandles` as errors;
the internal catch converts both to a normal return of the empty list. -/
theorem c3_counterexample :
    loadCandles true GistResponse.networkError = Except.ok [] ∧
    loadCandles true (GistResponse.httpError 404) = Except.ok [] ∧
    (∀ e, loadCandles true GistResponse.networkError ≠ Except.error e) := by
  refine ⟨rfl, rfl, fun e h => ?_⟩
  exact Except.noConfusion h

/-- Claim C3 as amended: `loadCandles` returns an empty collection when the
tracked file is absent, empty or malformed, and ALSO converts network and
non-2xx failures to an empty collection; it never raises on any input
(no failure propagates to the caller). -/
theorem c3_load_never_raises (hasToken : Bool) (r : GistResponse) (st : Nat) (u : String) :
    (∃ cs, loadCandles hasToken r = Except.ok cs) ∧
    loadCandles hasToken GistResponse.networkError = Except.ok [] ∧
    loadCandles hasToken (GistResponse.httpError st) = Except.ok [] ∧
    loadCandles hasToken (GistResponse.ok u ContentState.absent) = Except.ok [] ∧
    loadCandles hasToken (GistResponse.ok u ContentState.malformed) = Except.ok [] ∧
    (∀ cs, loadCandles hasToken (GistResponse.ok u (ContentState.valid cs)) = Except.ok cs) := by
  refine ⟨?_, rfl, rfl, rfl, rfl, fun cs => rfl⟩
  cases r with
  | networkError => exact ⟨[], rfl⟩
  | httpError s => exact ⟨[], rfl⟩
  | ok u c =>
    cases c with
    | absent => exact ⟨[], rfl⟩
    | malformed => exact ⟨[], rfl⟩
    | valid cs => exact ⟨cs, rfl⟩

/-- Claim C6: without a credential, `saveCandles` fails (returns `false`)
before issuing any request, while `loadCandles` behaves exactly as with a
credential and always returns normally. -/
theorem c6_write_fail_fast (w : WriteOutcome) (cs : List Candle) (r : GistResponse) :
    (saveCandles false w cs).success = false ∧
    (saveCandles false w cs).attempted = false ∧
    isConfigured false = false ∧
    loadCandles false r = loadCandles true r ∧
    (∃ out, loadCandles false r = Except.ok out) := by
  refine ⟨rfl, rfl, rfl, rfl, ?_⟩
  cases r with
  | networkError => exact ⟨[], rfl⟩
  | httpError s => exact ⟨[], rfl⟩
  | ok u c =>
    cases c with
    | absent => exact ⟨[], rfl⟩
    | malformed => exact ⟨[], rfl⟩
    | valid out => exact ⟨out, rfl⟩

/-- Claim C7: a failed polling tick surfaces no user-visible error and
never stops the loop.  On the App side, no branch of `pollForUpdates`
writes the `error` banner, whatever the tick's outcome.  On the service
side, an erroring tick notifies no subscriber and changes nothing but the
timer, and every tick — error or not — reschedules the loop exactly when
`isPolling` still holds, so the loop retries unconditionally on the next
tick. -/
theorem c7_poll_failures_silent (hasToken : Bool) (r : GistResponse)
    (s : AppState) (st : PollingState) :
    (pollForUpdates hasToken r s).error = s.error ∧
    (gistPollTick GistResponse.networkError st).1
        = { st with timerActive := st.isPolling } ∧
    (gistPollTick GistResponse.networkError st).2 = [] ∧
    (gistPollTick (GistResponse.httpError 500) st).2 = [] ∧
    (gistPollTick r st).1.timerActive = st.isPolling ∧
    (gistPollTick r st).1.isPolling = st.isPolling := by
  refine ⟨?_, rfl, rfl, rfl, ?_, ?_⟩
  · unfold pollForUpdates
    split
    · rfl
    · cases hld : loadCandles hasToken r with
      | ok remoteCandles =>
        simp only
        split
        · rfl
        · rfl
      | error e => rfl
  · unfold gistPollTick
    cases r with
    | networkError => rfl
    | httpError status => rfl
    | ok u c =>
      simp only
      split
      · cases c <;> rfl
      · rfl
  · unfold gistPollTick
    cases r with
    | networkError => rfl
    | httpError status => rfl
    | ok u c =>
      simp only
      split
      · cases c <;> rfl
      · rfl

/-- Claim C1 evaluated at the failing input (the spec's own forced-failure
test): local cache `[{id 1, name "old"}]`, rename id 1 to `"new"`, the
pre-write fetch returns the same single candle, the PATCH fails with a
network error, and the remote document is therefore still `"old"`.  The
code keeps the optimistic merged list `[{id 1, name "new"}]`, reports no
error, and never re-fetches: `saveCandles` swallows its failure and
returns `false`, which `updateCandleName` ignores, so the rollback catch
block in App.jsx is dead code.  A subsequent successful fetch would return
`[{id 1, name "old"}]`, which differs from the cache. -/
theorem c1_rename_write_failure_keeps_optimistic_state :
    (updateCandleName true 1 "new"
        (GistResponse.ok "t1" (ContentState.valid [⟨1, 10, 20, "old"⟩]))
        WriteOutcome.networkError
        (GistResponse.ok "t1" (ContentState.valid [⟨1, 10, 20, "old"⟩]))
        ⟨[⟨1, 10, 20, "old"⟩], 2, none, false, 0⟩).1
      = ⟨[⟨1, 10, 20, "new"⟩], 2, none, true, 0⟩ ∧
    (updateCandleName true 1 "new"
        (GistResponse.ok "t1" (ContentState.valid [⟨1, 10, 20, "old"⟩]))
        WriteOutcome.networkError
        (GistResponse.ok "t1" (ContentState.valid [⟨1, 10, 20, "old"⟩]))
        ⟨[⟨1, 10, 20, "old"⟩], 2, none, false, 0⟩).2
      = ⟨false, true, none⟩ ∧
    loadCandles true (GistResponse.ok "t1" (ContentState.valid [⟨1, 10, 20, "old"⟩]))
      = Except.ok [⟨1, 10, 20, "old"⟩] ∧
    ([⟨1, 10, 20, "new"⟩] : List Candle) ≠ [⟨1, 10, 20, "old"⟩] := by
  refine ⟨rfl, rfl, rfl, ?_⟩
  decide

/-- Claim C2, counterexample: the engine has no in-flight mutation gate,
only a one-shot `skipNextPoll` flag.  Start a rename (its round trip is
still in flight: `renameFinish` has not run).  The first poll tick is
suppressed and clears the flag; a second poll tick arriving while the same
mutation is still in flight replaces the local cache.  So a poll result
arriving while the mutation is outstanding CAN alter the local state,
contrary to the claim. -/
theorem c2_counterexample :
    (pollForUpdates true (GistResponse.ok "t1" (ContentState.valid [⟨5, 0, 0, "x"⟩]))
        (renameStart 1 "b" ⟨[⟨1, 10, 20, "a"⟩], 2, none, false, 0⟩)).candles
      = (renameStart 1 "b" ⟨[⟨1, 10, 20, "a"⟩], 2, none, false, 0⟩).candles ∧
    (pollForUpdates true (GistResponse.ok "t2" (ContentState.valid [⟨5, 0, 0, "x"⟩]))
        (pollForUpdates true (GistResponse.ok "t1" (ContentState.valid [⟨5, 0, 0, "x"⟩]))
          (renameStart 1 "b" ⟨[⟨1, 10, 20, "a"⟩], 2, none, false, 0⟩))).candles
      = [⟨5, 0, 0, "x"⟩] ∧
    ([⟨5, 0, 0, "x"⟩] : List Candle)
      ≠ (pollForUpdates true (GistResponse.ok "t1" (ContentState.valid [⟨5, 0, 0, "x"⟩]))
          (renameStart 1 "b" ⟨[⟨1, 10, 20, "a"⟩], 2, none, false, 0⟩)).candles := by
  refine ⟨rfl, by decide, by decide⟩

/-- Claim C2 as amended: the suppression is a one-shot flag, not a gate.
Every mutation's synchronous prefix sets `skipNextPoll`; while the flag is
set, a poll tick only clears it and leaves the rest of the state — in
particular the candle cache — unchanged; once the flag is clear, the next
poll tick whose data differs applies.  Only the FIRST poll tick during a
mutation's round trip is guaranteed not to alter the cache. -/
theorem c2_first_poll_skipped (hasToken : Bool) (r : GistResponse) (s : AppState)
    (id : Nat) (nm : String) (x y : Int) (remote : List Candle) (u : String) :
    (s.skipNextPoll = true → pollForUpdates hasToken r s = { s with skipNextPoll := false }) ∧
    (renameStart id nm s).skipNextPoll = true ∧
    (moveStart id x y s).skipNextPoll = true ∧
    (removeStart id s).skipNextPoll = true ∧
    (addStart x y s).skipNextPoll = true ∧
    (s.skipNextPoll = false → s.candles ≠ remote →
      (pollForUpdates hasToken (GistResponse.ok u (ContentState.valid remote)) s).candles
        = remote) := by
  refine ⟨fun h => ?_, rfl, rfl, rfl, rfl, fun h hne => ?_⟩
  · unfold pollForUpdates
    rw [if_pos h]
  · unfold pollForUpdates
    rw [if_neg (by simp [h])]
    simp only [loadCandles]
    rw [if_pos hne]

/-- Closed instance of `c2_first_poll_skipped`. -/
theorem c2_first_poll_skipped_witness :
    pollForUpdates true GistResponse.networkError ⟨[], 1, none, true, 0⟩
      = ⟨[], 1, none, false, 0⟩ ∧
    (pollForUpdates true (GistResponse.ok "t" (ContentState.valid [⟨1, 0, 0, ""⟩]))
        ⟨[], 1, none, false, 0⟩).candles = [⟨1, 0, 0, ""⟩] := by
  constructor
  · exact (c2_first_poll_skipped true GistResponse.networkError
      ⟨[], 1, none, true, 0⟩ 1 "" 0 0 [] "t").1 rfl
  · exact (c2_first_poll_skipped true (GistResponse.ok "t" (ContentState.valid [⟨1, 0, 0, ""⟩]))
      ⟨[], 1, none, false, 0⟩ 1 "" 0 0 [⟨1, 0, 0, ""⟩] "t").2.2.2.2.2 rfl (by decide)

/-- Claim C4: every mutation's finish phase re-applies its transform to the
collection freshly fetched immediately before the write (`latest`), not to
the pre-mutation local snapshot: the reconciled cache — and, on a
successful authorized write, the written document — are functions of
`latest` alone (the state `s` appears on the left of each equation but not
on the right, except for the id drawn from the counter in `add`).  Hence
an item another client added between this client's last observation and
its write is still contained in the merged written collection. -/
theorem c4_merge_reapplies_to_latest (hasToken : Bool) (s : AppState)
    (latest : List Candle) (u : String) (w : WriteOutcome) (r2 : GistResponse)
    (id : Nat) (nm : String) (x y : Int) (other : Candle) :
    (updateCandleName hasToken id nm (GistResponse.ok u (ContentState.valid latest)) w r2 s).1.candles
        = renameTransform id nm latest ∧
    (updateCandlePosition hasToken id x y (GistResponse.ok u (ContentState.valid latest)) w r2 s).1.candles
        = moveTransform id x y latest ∧
    (removeCandle hasToken id (GistResponse.ok u (ContentState.valid latest)) w r2 s).1.candles
        = removeTransform id latest ∧
    (addCandle hasToken x y (GistResponse.ok u (ContentState.valid latest)) w r2 s).1.candles
        = latest ++ [{ id := s.nextId, x := x, y := y, name := "" }] ∧
    (addCandle true x y (GistResponse.ok u (ContentState.valid latest)) WriteOutcome.ok r2 s).2.written
        = some (latest ++ [{ id := s.nextId, x := x, y := y, name := "" }]) ∧
    (updateCandleName true id nm (GistResponse.ok u (ContentState.valid latest)) WriteOutcome.ok r2 s).2.written
        = some (renameTransform id nm latest) ∧
    (other ∈ latest →
      other ∈ (addCandle hasToken x y (GistResponse.ok u (ContentState.valid latest)) w r2 s).1.candles) ∧
    (other ∈ latest → other.id ≠ id →
      other ∈ (removeCandle hasToken id (GistResponse.ok u (ContentState.valid latest)) w r2 s).1.candles) := by
  refine ⟨rfl, rfl, rfl, rfl, rfl, rfl, fun h => ?_, fun h hne => ?_⟩
  · show other ∈ latest ++ [_]
    exact List.mem_append.mpr (Or.inl h)
  · show other ∈ removeTransform id latest
    unfold removeTransform
    exact List.mem_filter.mpr ⟨h, by simpa using hne⟩

/-- Closed instance of `c4_merge_reapplies_to_latest`, at the spec's own
scenario: this client adds to what it believes is an empty document, but
the pre-write fetch returns a document to which another client has already
written items with ids 1 and 2; the merged written collection retains
id 2's item. -/
theorem c4_merge_reapplies_to_latest_witness :
    (⟨2, 30, 40, "other"⟩ : Candle) ∈
      (addCandle true 10 20
        (GistResponse.ok "t" (ContentState.valid [⟨1, 10, 20, ""⟩, ⟨2, 30, 40, "other"⟩]))
        WriteOutcome.ok GistResponse.networkError
        ⟨[⟨1, 10, 20, ""⟩], 2, none, false, 0⟩).1.candles ∧
    (⟨2, 30, 40, "other"⟩ : Candle) ∈
      (removeCandle true 1
        (GistResponse.ok "t" (ContentState.valid [⟨1, 10, 20, ""⟩, ⟨2, 30, 40, "other"⟩]))
        WriteOutcome.ok GistResponse.networkError
        ⟨[⟨1, 10, 20, ""⟩], 2, none, false, 0⟩).1.candles := by
  constructor
  · exact (c4_merge_reapplies_to_latest true ⟨[⟨1, 10, 20, ""⟩], 2, none, false, 0⟩
      [⟨1, 10, 20, ""⟩, ⟨2, 30, 40, "other"⟩] "t" WriteOutcome.ok GistResponse.networkError
      1 "" 10 20 ⟨2, 30, 40, "other"⟩).2.2.2.2.2.2.1 (by decide)
  · exact (c4_merge_reapplies_to_latest true ⟨[⟨1, 10, 20, ""⟩], 2, none, false, 0⟩
      [⟨1, 10, 20, ""⟩, ⟨2, 30, 40, "other"⟩] "t" WriteOutcome.ok GistResponse.networkError
      1 "" 10 20 ⟨2, 30, 40, "other"⟩).2.2.2.2.2.2.2 (by decide) (by decide)

/-- Claim C5, counterexample.  First half: a successful `removeCandle` and
a poll that applies an empty remote collection both replace the cache
wholesale yet leave `nextId` untouched (the claim demands `max + 1`,
respectively `1`).  Second half, the spec's own scenario: with candles
`{id 1}` and `{id 2}` and counter 3, removing the maximum id 2 and then
adding yields new id 3 — the removed id + 1 from the stale counter — and
not `(max of remaining ids) + 1 = 2`. -/
theorem c5_counterexample :
    (removeCandle true 2
        (GistResponse.ok "t1" (ContentState.valid [⟨1, 0, 0, ""⟩, ⟨2, 0, 0, ""⟩]))
        WriteOutcome.ok GistResponse.networkError
        ⟨[⟨1, 0, 0, ""⟩, ⟨2, 0, 0, ""⟩], 3, none, false, 0⟩).1
      = ⟨[⟨1, 0, 0, ""⟩], 3, none, true, 0⟩ ∧
    (addCandle true 5 6
        (GistResponse.ok "t2" (ContentState.valid [⟨1, 0, 0, ""⟩]))
        WriteOutcome.ok GistResponse.networkError
        ⟨[⟨1, 0, 0, ""⟩], 3, none, true, 0⟩).1.candles
      = [⟨1, 0, 0, ""⟩, ⟨3, 5, 6, ""⟩] ∧
    maxIdOf [⟨1, 0, 0, ""⟩] + 1 = 2 ∧
    (3 : Nat) ≠ 2 ∧
    pollForUpdates true (GistResponse.ok "t3" (ContentState.valid []))
        ⟨[⟨1, 0, 0, ""⟩], 5, none, false, 0⟩
      = ⟨[], 5, none, false, 1⟩ := by
  refine ⟨by decide, by decide, by decide, by decide, by decide⟩

/-- Claim C5 as amended: `nextId` is recomputed as `max(ids) + 1` only
when a poll applies a NONEMPTY differing remote collection and on the
success path of `add` (whose merged list is necessarily nonempty); a poll
that applies an empty remote collection, and the success paths of rename,
move and remove, leave `nextId` unchanged.  Consequently, after removing
the item holding the maximum id, the next added item's id is the stale
counter value — the removed id + 1 — not `(max of remaining ids) + 1`. -/
theorem c5_next_id_policy (hasToken : Bool) (s : AppState)
    (remote latest : List Candle) (u : String) (id : Nat) (nm : String)
    (x y : Int) (w : WriteOutcome) (r2 : GistResponse) :
    (s.skipNextPoll = false → s.candles ≠ remote → 0 < remote.length →
      (pollForUpdates hasToken (GistResponse.ok u (ContentState.valid remote)) s).nextId
        = maxIdOf remote + 1) ∧
    (s.skipNextPoll = false → s.candles ≠ [] →
      (pollForUpdates hasToken (GistResponse.ok u (ContentState.valid [])) s).nextId
        = s.nextId) ∧
    (removeCandle hasToken id (GistResponse.ok u (ContentState.valid latest)) w r2 s).1.nextId
        = s.nextId ∧
    (updateCandleName hasToken id nm (GistResponse.ok u (ContentState.valid latest)) w r2 s).1.nextId
        = s.nextId ∧
    (updateCandlePosition hasToken id x y (GistResponse.ok u (ContentState.valid latest)) w r2 s).1.nextId
        = s.nextId ∧
    (addCandle hasToken x y (GistResponse.ok u (ContentState.valid latest)) w r2 s).1.nextId
        = maxIdOf (latest ++ [{ id := s.nextId, x := x, y := y, name := "" }]) + 1 := by
  refine ⟨fun h hne hlen => ?_, fun h hne => ?_, rfl, rfl, rfl, rfl⟩
  · unfold pollForUpdates
    rw [if_neg (by simp [h])]
    simp only [loadCandles]
    rw [if_pos hne]
    simp [hlen]
  · unfold pollForUpdates
    rw [if_neg (by simp [h])]
    simp only [loadCandles]
    rw [if_pos hne]
    simp

/-- Closed instance of `c5_next_id_policy`. -/
theorem c5_next_id_policy_witness :
    (pollForUpdates true (GistResponse.ok "t" (ContentState.valid [⟨4, 0, 0, ""⟩]))
        ⟨[], 1, none, false, 0⟩).nextId = maxIdOf [⟨4, 0, 0, ""⟩] + 1 ∧
    (pollForUpdates true (GistResponse.ok "t" (ContentState.valid []))
        ⟨[⟨4, 0, 0, ""⟩], 9, none, false, 0⟩).nextId = 9 ∧
    (removeCandle true 4 (GistResponse.ok "t" (ContentState.valid [⟨4, 0, 0, ""⟩]))
        WriteOutcome.ok GistResponse.networkError
        ⟨[⟨4, 0, 0, ""⟩], 5, none, false, 0⟩).1.nextId = 5 := by
  refine ⟨?_, ?_, ?_⟩
  · exact (c5_next_id_policy true ⟨[], 1, none, false, 0⟩ [⟨4, 0, 0, ""⟩] []
      "t" 0 "" 0 0 WriteOutcome.ok GistResponse.networkError).1 rfl (by decide) (by decide)
  · exact (c5_next_id_policy true ⟨[⟨4, 0, 0, ""⟩], 9, none, false, 0⟩ [] []
      "t" 0 "" 0 0 WriteOutcome.ok GistResponse.networkError).2.1 rfl (by decide)
  · exact (c5_next_id_policy true ⟨[⟨4, 0, 0, ""⟩], 5, none, false, 0⟩ []
      [⟨4, 0, 0, ""⟩] "t" 4 "" 0 0 WriteOutcome.ok GistResponse.networkError).2.2.1

/-- Claim C9: `remove` filters by id and is a no-op on a missing id — a
second removal of an already-removed id leaves the collection unchanged —
and both call sites (the App handler and `GistService.removeCandle`) apply
this same filter; the App handler's success path signals nothing (the
error banner is untouched), so no `NotFound` is ever raised. -/
theorem c9_remove_idempotent_no_op (id : Nat) (cs : List Candle) (hasToken : Bool)
    (w : WriteOutcome) (s : AppState) (u : String) (r2 : GistResponse) :
    removeTransform id (removeTransform id cs) = removeTransform id cs ∧
    (id ∉ cs.map Candle.id → removeTransform id cs = cs) ∧
    gistRemoveCandle hasToken w cs id = saveCandles hasToken w (removeTransform id cs) ∧
    (removeCandle hasToken id (GistResponse.ok u (ContentState.valid cs)) w r2 s).1.candles
        = removeTransform id cs ∧
    (removeCandle hasToken id (GistResponse.ok u (ContentState.valid cs)) w r2 s).1.error
        = s.error := by
  refine ⟨?_, fun h => ?_, rfl, rfl, rfl⟩
  · simp [removeTransform, List.filter_filter]
  · rw [removeTransform, List.filter_eq_self]
    intro c hc
    simp only [bne_iff_ne, ne_eq, decide_eq_true_eq]
    intro hEq
    exact h (hEq ▸ List.mem_map_of_mem Candle.id hc)

/-- Closed instance of `c9_remove_idempotent_no_op`. -/
theorem c9_remove_idempotent_no_op_witness :
    removeTransform 7 [⟨1, 0, 0, "a"⟩] = [⟨1, 0, 0, "a"⟩] ∧
    (removeCandle true 7 (GistResponse.ok "t" (ContentState.valid [⟨1, 0, 0, "a"⟩]))
        WriteOutcome.ok GistResponse.networkError
        ⟨[⟨1, 0, 0, "a"⟩], 2, none, false, 0⟩).1.error = none := by
  constructor
  · exact (c9_remove_idempotent_no_op 7 [⟨1, 0, 0, "a"⟩] true WriteOutcome.ok
      ⟨[⟨1, 0, 0, "a"⟩], 2, none, false, 0⟩ "t" GistResponse.networkError).2.1 (by decide)
  · exact (c9_remove_idempotent_no_op 7 [⟨1, 0, 0, "a"⟩] true WriteOutcome.ok
      ⟨[⟨1, 0, 0, "a"⟩], 2, none, false, 0⟩ "t" GistResponse.networkError).2.2.2.2

/-- A map whose function fixes every element of the list is the identity. -/
theorem map_eq_self_of_id_on_mem {f : Candle → Candle} {cs : List Candle}
    (h : ∀ c ∈ cs, f c = c) : cs.map f = cs := by
  induction cs with
  | nil => rfl
  | cons a t ih =>
    simp only [List.map_cons]
    rw [h a (List.mem_cons_self a t), ih (fun b hb => h b (List.mem_cons_of_mem a hb))]

/-- Claim C10: for an id absent from the collection, the rename and move
transforms are the identity, yet the mutation still PATCHes the unchanged
collection and signals no error; for a present id the transforms keep the
list length, leave every non-matching item untouched, and change only the
`name` field (rename), respectively only `x` and `y` (move), of the
matching item. -/
theorem c10_rename_move_frame (id : Nat) (nm : String) (x y : Int)
    (cs : List Candle) (hasToken : Bool) (w : WriteOutcome) (s : AppState)
    (u : String) (r2 : GistResponse) (c : Candle) :
    (id ∉ cs.map Candle.id → renameTransform id nm cs = cs) ∧
    (id ∉ cs.map Candle.id → moveTransform id x y cs = cs) ∧
    (id ∉ cs.map Candle.id →
      (updateCandleName true id nm (GistResponse.ok u (ContentState.valid cs)) WriteOutcome.ok r2 s).2.written
          = some cs ∧
      (updateCandleName true id nm (GistResponse.ok u (ContentState.valid cs)) WriteOutcome.ok r2 s).2.attempted
          = true ∧
      (updateCandlePosition true id x y (GistResponse.ok u (ContentState.valid cs)) WriteOutcome.ok r2 s).2.written
          = some cs) ∧
    (updateCandleName hasToken id nm (GistResponse.ok u (ContentState.valid cs)) w r2 s).1.error
        = s.error ∧
    (updateCandlePosition hasToken id x y (GistResponse.ok u (ContentState.valid cs)) w r2 s).1.error
        = s.error ∧
    (renameTransform id nm cs).length = cs.length ∧
    (moveTransform id x y cs).length = cs.length ∧
    (c ∈ cs → c.id ≠ id → c ∈ renameTransform id nm cs ∧ c ∈ moveTransform id x y cs) ∧
    (∀ d ∈ renameTransform id nm cs, ∃ c0, c0 ∈ cs ∧ d.id = c0.id ∧ d.x = c0.x ∧ d.y = c0.y ∧
        ((c0.id ≠ id ∧ d.name = c0.name) ∨ (c0.id = id ∧ d.name = nm))) ∧
    (∀ d ∈ moveTransform id x y cs, ∃ c0, c0 ∈ cs ∧ d.id = c0.id ∧ d.name = c0.name ∧
        ((c0.id ≠ id ∧ d.x = c0.x ∧ d.y = c0.y) ∨ (c0.id = id ∧ d.x = x ∧ d.y = y))) := by
  have hren : id ∉ cs.map Candle.id → renameTransform id nm cs = cs := by
    intro h
    refine map_eq_self_of_id_on_mem (fun c0 hc0 => ?_)
    rw [if_neg]
    intro hEq
    exact h (hEq ▸ List.mem_map_of_mem Candle.id hc0)
  have hmov : id ∉ cs.map Candle.id → moveTransform id x y cs = cs := by
    intro h
    refine map_eq_self_of_id_on_mem (fun c0 hc0 => ?_)
    rw [if_neg]
    intro hEq
    exact h (hEq ▸ List.mem_map_of_mem Candle.id hc0)
  refine ⟨hren, hmov, fun h => ⟨?_, rfl, ?_⟩, rfl, rfl, by simp [renameTransform],
      by simp [moveTransform], fun hc hne => ⟨?_, ?_⟩, fun d hd => ?_, fun d hd => ?_⟩
  · have h1 : (updateCandleName true id nm (GistResponse.ok u (ContentState.valid cs))
        WriteOutcome.ok r2 s).2.written = some (renameTransform id nm cs) := rfl
    rw [h1, hren h]
  · have h1 : (updateCandlePosition true id x y (GistResponse.ok u (ContentState.valid cs))
        WriteOutcome.ok r2 s).2.written = some (moveTransform id x y cs) := rfl
    rw [h1, hmov h]
  · exact List.mem_map.mpr ⟨c, hc, by rw [if_neg hne]⟩
  · exact List.mem_map.mpr ⟨c, hc, by rw [if_neg hne]⟩
  · rw [renameTransform, List.mem_map] at hd
    obtain ⟨c0, hc0, hfc⟩ := hd
    refine ⟨c0, hc0, ?_⟩
    by_cases h0 : c0.id = id
    · rw [if_pos h0] at hfc
      subst hfc
      exact ⟨rfl, rfl, rfl, Or.inr ⟨h0, rfl⟩⟩
    · rw [if_neg h0] at hfc
      subst hfc
      exact ⟨rfl, rfl, rfl, Or.inl ⟨h0, rfl⟩⟩
  · rw [moveTransform, List.mem_map] at hd
    obtain ⟨c0, hc0, hfc⟩ := hd
    refine ⟨c0, hc0, ?_⟩
    by_cases h0 : c0.id = id
    · rw [if_pos h0] at hfc
      subst hfc
      exact ⟨rfl, rfl, Or.inr ⟨h0, rfl, rfl⟩⟩
    · rw [if_neg h0] at hfc
      subst hfc
      exact ⟨rfl, rfl, Or.inl ⟨h0, rfl, rfl⟩⟩

/-- Closed instance of `c10_rename_move_frame`. -/
theorem c10_rename_move_frame_witness :
    renameTransform 9 "n" [⟨1, 2, 3, "a"⟩] = [⟨1, 2, 3, "a"⟩] ∧
    (updateCandleName true 9 "n"
        (GistResponse.ok "t" (ContentState.valid [⟨1, 2, 3, "a"⟩]))
        WriteOutcome.ok GistResponse.networkError
        ⟨[⟨1, 2, 3, "a"⟩], 2, none, false, 0⟩).2.written = some [⟨1, 2, 3, "a"⟩] ∧
    (⟨1, 2, 3, "a"⟩ : Candle) ∈ renameTransform 9 "n" [⟨1, 2, 3, "a"⟩] := by
  refine ⟨?_, ?_, ?_⟩
  · exact (c10_rename_move_frame 9 "n" 0 0 [⟨1, 2, 3, "a"⟩] true WriteOutcome.ok
      ⟨[⟨1, 2, 3, "a"⟩], 2, none, false, 0⟩ "t" GistResponse.networkError
      ⟨1, 2, 3, "a"⟩).1 (by decide)
  · exact ((c10_rename_move_frame 9 "n" 0 0 [⟨1, 2, 3, "a"⟩] true WriteOutcome.ok
      ⟨[⟨1, 2, 3, "a"⟩], 2, none, false, 0⟩ "t" GistResponse.networkError
      ⟨1, 2, 3, "a"⟩).2.2.1 (by decide)).1
  · exact ((c10_rename_move_frame 9 "n" 0 0 [⟨1, 2, 3, "a"⟩] true WriteOutcome.ok
      ⟨[⟨1, 2, 3, "a"⟩], 2, none, false, 0⟩ "t" GistResponse.networkError
      ⟨1, 2, 3, "a"⟩).2.2.2.2.2.2.2.1 (by decide) (by decide)).1

/-- Claim C8: `startPolling` begins the loop (increments `loopStarts`,
sets `isPolling` and the timer) only when the loop is not yet live — under
the lifecycle invariant, exactly on the first registration — and otherwise
only adds the subscriber, leaving the loop and timer untouched;
`stopPolling(subscriber)` removes exactly that subscriber (no other handle
is affected), and cancels the loop and the pending timer exactly when the
subscriber set becomes empty.  The invariant "the loop is live iff the
subscriber set is nonempty" holds initially and is preserved by both
operations. -/
theorem c8_polling_lifecycle (cb d : Nat) (st : PollingState) :
    (st.isPolling = false →
      startPolling cb st
        = { st with pollingCallbacks := setAdd cb st.pollingCallbacks,
                    isPolling := true, timerActive := true,
                    loopStarts := st.loopStarts + 1 }) ∧
    (st.isPolling = true →
      startPolling cb st = { st with pollingCallbacks := setAdd cb st.pollingCallbacks }) ∧
    cb ∈ (startPolling cb st).pollingCallbacks ∧
    (st.pollingCallbacks.Nodup → cb ∉ (stopPollingCb cb st).pollingCallbacks) ∧
    (d ≠ cb → (d ∈ (stopPollingCb cb st).pollingCallbacks ↔ d ∈ st.pollingCallbacks)) ∧
    (setDelete cb st.pollingCallbacks = [] →
      stopPollingCb cb st
        = { st with pollingCallbacks := [], isPolling := false, timerActive := false }) ∧
    (PollInv st → PollInv (startPolling cb st)) ∧
    (PollInv st → PollInv (stopPollingCb cb st)) ∧
    (PollInv st →
      ((stopPollingCb cb st).isPolling = false
        ↔ (stopPollingCb cb st).pollingCallbacks = [])) := by
  have hmem : cb ∈ setAdd cb st.pollingCallbacks := by
    unfold setAdd
    by_cases h : cb ∈ st.pollingCallbacks
    · rw [if_pos h]
      exact h
    · rw [if_neg h]
      exact List.mem_append.mpr (Or.inr (List.mem_singleton.mpr rfl))
  have haddne : setAdd cb st.pollingCallbacks ≠ [] := by
    intro h0
    rw [h0] at hmem
    exact (List.not_mem_nil cb) hmem
  have hcbs : (stopPollingCb cb st).pollingCallbacks = setDelete cb st.pollingCallbacks := by
    unfold stopPollingCb
    by_cases h : (setDelete cb st.pollingCallbacks).length = 0
    · rw [if_pos h]
    · rw [if_neg h]
  refine ⟨fun h => ?_, fun h => ?_, ?_, fun hnd => ?_, fun hd => ?_, fun hemp => ?_,
      fun hinv => ?_, fun hinv => ?_, fun hinv => ?_⟩
  · unfold startPolling
    rw [if_neg (by simp [h])]
  · unfold startPolling
    rw [if_pos h]
  · unfold startPolling
    by_cases h : st.isPolling
    · rw [if_pos h]
      exact hmem
    · rw [if_neg h]
      exact hmem
  · rw [hcbs]
    exact hnd.not_mem_erase
  · rw [hcbs]
    exact List.mem_erase_of_ne hd
  · unfold stopPollingCb
    rw [if_pos (by rw [hemp]; rfl)]
    rw [hemp]
  · unfold PollInv at hinv ⊢
    unfold startPolling
    by_cases h : st.isPolling
    · rw [if_pos h]
      exact ⟨fun _ => haddne, fun _ => h⟩
    · rw [if_neg h]
      exact ⟨fun _ => haddne, fun _ => rfl⟩
  · unfold PollInv at hinv ⊢
    unfold stopPollingCb
    by_cases h : (setDelete cb st.pollingCallbacks).length = 0
    · rw [if_pos h]
      simp only
      constructor
      · intro hf
        exact absurd hf (by simp)
      · intro hne
        exact absurd (List.length_eq_zero.mp h) hne
    · rw [if_neg h]
      simp only
      constructor
      · intro _
        exact fun h0 => h (by rw [h0]; rfl)
      · intro _
        refine hinv.mpr (fun h0 => ?_)
        rw [setDelete, h0] at h
        exact h rfl
  · unfold PollInv at hinv
    unfold stopPollingCb
    by_cases h : (setDelete cb st.pollingCallbacks).length = 0
    · rw [if_pos h]
      constructor
      · intro _
        exact List.length_eq_zero.mp h
      · intro _
        rfl
    · rw [if_neg h]
      simp only
      constructor
      · intro hstop
        have hne : st.pollingCallbacks ≠ [] := by
          intro h0
          rw [setDelete, h0] at h
          exact h rfl
        rw [hinv.mpr hne] at hstop
        exact absurd hstop (by simp)
      · intro h0
        exact absurd h (by rw [h0]; exact fun hk => hk rfl)

/-- Closed instance of `c8_polling_lifecycle`: register subscriber 7 on
the fresh service (loop begins), then remove it (loop cancelled). -/
theorem c8_polling_lifecycle_witness :
    startPolling 7 ⟨none, false, false, [], 0⟩ = ⟨none, true, true, [7], 1⟩ ∧
    (7 : Nat) ∉ (stopPollingCb 7 ⟨none, true, true, [7], 1⟩).pollingCallbacks ∧
    stopPollingCb 7 ⟨none, true, true, [7], 1⟩ = ⟨none, false, false, [], 1⟩ ∧
    ((stopPollingCb 7 ⟨none, true, true, [7], 1⟩).isPolling = false
      ↔ (stopPollingCb 7 ⟨none, true, true, [7], 1⟩).pollingCallbacks = []) := by
  refine ⟨?_, ?_, ?_, ?_⟩
  · exact (c8_polling_lifecycle 7 0 ⟨none, false, false, [], 0⟩).1 rfl
  · exact (c8_polling_lifecycle 7 0 ⟨none, true, true, [7], 1⟩).2.2.2.1 (by decide)
  · exact (c8_polling_lifecycle 7 0 ⟨none, true, true, [7], 1⟩).2.2.2.2.2.1 (by decide)
  · exact (c8_polling_lifecycle 7 0 ⟨none, true, true, [7], 1⟩).2.2.2.2.2.2.2.2
      ⟨fun _ => by decide, fun _ => rfl⟩
